import Mathlib

/-!
Verification of the distkv runner subsystem (src/distkv/runner.py) against its
natural-language specification.  The Python code is shallowly embedded: times
are rationals, persisted job attributes become structure fields, and the
fallible parts of the code return explicit outcome types.  Python semantics
that matter here (truthiness, `is not None` checks, unbound local variables,
attribute lookup failures, `==` between values of different types) are made
explicit in the definitions, each of which mirrors a named function of the
source file.
-/

namespace DistKV

/-- Python exceptions that the runner code can produce or propagate. -/
inductive PyExc where
  /-- `RuntimeError`, e.g. "already running on %s" / "Rudely taken away from us." -/
  | runtimeError (msg : String)
  /-- raised by the code registry when `follow(*code, create=False)` misses. -/
  | keyError
  /-- an assigned-somewhere local variable read before its assignment ran. -/
  | unboundLocalError (v : String)
  /-- a name that is neither local nor global. -/
  | nameError (v : String)
  /-- attribute lookup failure. -/
  | attributeError (a : String)
  /-- e.g. awaiting a non-awaitable object. -/
  | typeError (msg : String)
  /-- `NotSelected` (runner.py lines 33-38). -/
  | notSelected
  /-- an exception raised by user-supplied job code. -/
  | userError
  deriving DecidableEq, Repr

/-- Result of invoking a resolved callable, or of a finished run: either a
plain value or an awaitable (coroutine object) that would yield a value when
awaited.  Distinguishing the two is needed because `run()` decides whether to
await based on the `is_async` flag. -/
inductive PyRes where
  | intv (n : Int)
  | coro (n : Int)
  deriving DecidableEq, Repr

/-- A `RunnerEntry`'s persisted attributes (runner.py lines 71-84) plus the
transient fields that the claims touch: `retry` (set by `run`, line 143),
`_comment` (line 83) and the cancel scope (line 82).  The scope is `none` when
no task is running and `some b` for a live scope whose cancel flag is `b`.
The `data` dict and the `repeat` attribute play no role in any claim and are
omitted; `code` is a path into the code registry. -/
structure RunnerEntry where
  code : Option (List String)
  started : Rat
  stopped : Rat
  delay : Rat
  backoff : Nat
  target : Rat
  node : Option String
  result : Option PyRes
  retry : Option Rat
  comment : Option String
  scope : Option Bool
  deriving DecidableEq, Repr

/-- A freshly created entry: the class-attribute defaults of runner.py lines
73-84 (`started = 0`, `stopped = 0`, `delay = 100`, `backoff = 1`,
`target = 0`, `node = None`) together with `__init__` setting `code = None`
(line 90); `result` is unset, modelled as `none`. -/
def newEntry : RunnerEntry :=
  { code := none, started := 0, stopped := 0, delay := 100, backoff := 1,
    target := 0, node := none, result := none, retry := none,
    comment := none, scope := none }

/-- Return type of `should_start`: Python returns `False` or a number of
seconds (positive: wait that long; non-positive: overdue). -/
inductive StartDecision where
  | no
  | wait (d : Rat)
  deriving DecidableEq, Repr

/-- `RunnerEntry.should_start(t)` (runner.py lines 200-222), with the query
time `t` passed explicitly.  `1 <<< backoff` mirrors the source's
`1 << self.backoff`; `if self.backoff:` is integer truthiness, i.e.
`backoff ≠ 0`. -/
def should_start (e : RunnerEntry) (t : Rat) : StartDecision :=
  if e.code = none then .no
  else if e.node ≠ none then .no
  else if e.target > e.started then .wait (e.target - t)
  else if e.backoff ≠ 0 then
    .wait (e.stopped + e.delay * ((1 <<< e.backoff : Nat) : Rat) - t)
  else .no

end DistKV

namespace DistKV

/-- C1: `should_start` returns a do-not-start answer whenever `code` is null
or `node` is non-null; otherwise, if `target > started` it returns
`target - t`; otherwise, if `backoff > 0` it returns
`stopped + delay * 2^backoff - t`; otherwise it returns False. -/
theorem should_start_spec (e : RunnerEntry) (t : Rat) :
    should_start e t =
      if e.code = none ∨ e.node ≠ none then .no
      else if e.target > e.started then .wait (e.target - t)
      else if 0 < e.backoff then .wait (e.stopped + e.delay * 2 ^ e.backoff - t)
      else .no := by
  unfold should_start
  have hs : ((1 <<< e.backoff : Nat) : Rat) = 2 ^ e.backoff := by
    rw [Nat.one_shiftLeft]
    push_cast
    ring
  by_cases hc : e.code = none
  · simp [hc]
  · by_cases hn : e.node = none
    · simp [hc, hn, hs, Nat.pos_iff_ne_zero]
    · simp [hc, hn]

end DistKV

namespace DistKV

/-- Outcome of invoking a callable obtained from the code registry. -/
inductive CallOutcome where
  | returns (v : PyRes)
  | raisesExc
  deriving DecidableEq, Repr

/-- A callable resolved from the code registry, per the spec's code-registry
contract (§6): an `is_async` flag (a boolean attribute that may also be
absent/None, since run() distinguishes `is not None`), and an invocation
outcome.  Async callables return an awaitable, sync callables return the
final value; either may raise. -/
structure CodeObj where
  is_async : Option Bool
  call : CallOutcome
  deriving DecidableEq, Repr

/-- The root state `RunnerEntry.run` consults: the local node name
(`self.root.name`) and the code registry (`self.root.code.follow`), modelled
as a partial map from code paths to callables.  The error sink and the KV
client are external services; their use is tracked in the run outcome. -/
structure RunnerRoot where
  name : String
  code : List String → Option CodeObj

/-- Outcome of the inner `try` block of `run` (runner.py lines 97-122).
`dataBound` records whether the local variable `data` (first assigned at
line 101) had been assigned when the exception was raised: the `except`
handler at lines 128-132 passes `data` to `record_exc`, and reading an
unassigned local raises `UnboundLocalError`. -/
inductive BodyOutcome where
  | success (res : PyRes) (e : RunnerEntry)
  | failed (exc : PyExc) (dataBound : Bool) (e : RunnerEntry)
  deriving DecidableEq, Repr

/-- The inner `try` block of `RunnerEntry.run` (runner.py lines 97-122), for
an entry whose `code` is `some path`, started at time `t0`:
* if `node` is not None, raise RuntimeError (line 98-99); `data` is unbound;
* resolve the path in the registry (line 100); a miss raises with `data`
  still unbound;
* set `started := t0`, `node := root.name` (lines 110-111); `save(wait=True)`
  is assumed to succeed with no concurrent modification, so the re-check at
  line 114 passes; open the cancel scope (lines 117-118);
* invoke the callable (line 119); if it raises, that propagates;
* line 120 awaits the result whenever `code.is_async is not None` — including
  `is_async == False` — and awaiting a plain (non-awaitable) value raises
  TypeError; when `is_async is None` the result is taken as-is, so an
  awaitable would be returned un-awaited. -/
def run_body (root : RunnerRoot) (e : RunnerEntry) (path : List String) (t0 : Rat) :
    BodyOutcome :=
  if e.node ≠ none then .failed (.runtimeError "already running") false e
  else match root.code path with
    | none => .failed .keyError false e
    | some c =>
      let e1 : RunnerEntry := { e with
        started := t0
        node := some root.name
        scope := some false }
      match c.call with
      | .raisesExc => .failed .userError true e1
      | .returns v =>
        if c.is_async ≠ none then
          match v with
          | .coro n => .success (.intv n) e1
          | .intv _ => .failed (.typeError "not awaitable") true e1
        else .success v e1

/-- The outer `finally` of `run` (runner.py lines 140-149): set `stopped` to
the time taken in the inner `finally` (line 126) and compute `retry`; the
final `save()` swallows `ServerError` (lines 146-149) and is assumed to
succeed here. -/
def run_finalize (e : RunnerEntry) (t1 : Rat) : RunnerEntry :=
  { e with
    stopped := t1
    retry := if 0 < e.backoff then
        some (t1 + ((1 <<< e.backoff : Nat) : Rat) * e.delay)
      else none }

/-- Overall outcome of one call to `RunnerEntry.run`, with the entry state it
leaves behind:
* `noCode`: returned at line 95 without doing anything;
* `ok`: the run succeeded (else-branch, lines 136-139);
* `okRecorded`: an exception was caught, recorded to the error sink with the
  saved `_comment`, `backoff` incremented (lines 128-135), and `run` returned
  normally;
* `propagated`: an exception escaped `run` itself. -/
inductive RunResult where
  | noCode (e : RunnerEntry)
  | ok (e : RunnerEntry)
  | okRecorded (e : RunnerEntry) (exc : PyExc) (comment : Option String)
  | propagated (e : RunnerEntry) (exc : PyExc)
  deriving DecidableEq, Repr

/-- The entry state left behind by a run. -/
def RunResult.entry : RunResult → RunnerEntry
  | .noCode e => e
  | .ok e => e
  | .okRecorded e _ _ => e
  | .propagated e _ => e

/-- `RunnerEntry.run` (runner.py lines 93-149), with the wall-clock times of
lines 110 and 126 passed as `t0` and `t1`.  The `except BaseException`
handler first swaps `_comment` out (line 129), then evaluates the arguments
of `record_exc` (lines 130-132): when the local `data` is unbound this raises
`UnboundLocalError` out of the handler, so nothing is recorded and the lines
incrementing `backoff` and clearing `node` (133-135) never run; the outer
`finally` still runs before the exception propagates. -/
def run (root : RunnerRoot) (e : RunnerEntry) (t0 t1 : Rat) : RunResult :=
  match e.code with
  | none => .noCode e
  | some path =>
    match run_body root e path t0 with
    | .success res e1 =>
      .ok (run_finalize
        { e1 with scope := none, result := some res, backoff := 0, node := none } t1)
    | .failed exc dataBound e1 =>
      let c := e1.comment
      let e2 : RunnerEntry := { e1 with scope := none, comment := none }
      if dataBound then
        .okRecorded (run_finalize
          { e2 with
            backoff := e2.backoff + 1
            node := if e2.node = some root.name then none else e2.node } t1) exc c
      else
        .propagated (run_finalize e2 t1) (.unboundLocalError "data")

/-- A root whose code registry resolves nothing. -/
def missRoot : RunnerRoot := { name := "n1", code := fun _ => none }

/-- An otherwise-default entry pointing at a code path the registry misses. -/
def ghostEntry : RunnerEntry := { newEntry with code := some ["ghost"] }

end DistKV

namespace DistKV

/-- C2 (code bug): on a code-registry miss, `run` does not record the
resolution error and does not increment `backoff`; instead the `except`
handler reads the unassigned local `data` (runner.py line 131) and `run`
propagates `UnboundLocalError`.  Evaluated at the failing input: a default
entry with `code = ["ghost"]` against an empty registry, run at times
t0 = 10, t1 = 11. -/
theorem run_registry_miss_eval :
    run missRoot ghostEntry 10 11 =
      .propagated { ghostEntry with stopped := 11, retry := some 211 }
        (.unboundLocalError "data")
    ∧ (run missRoot ghostEntry 10 11).entry.backoff = ghostEntry.backoff := by
  refine ⟨?_, ?_⟩ <;>
    norm_num [run, run_body, run_finalize, missRoot, ghostEntry, newEntry,
      RunResult.entry, Nat.shiftLeft_eq]

/-- A root whose registry maps `["sync", "fortytwo"]` to a synchronous
callable (`is_async = False`) returning the plain value 42. -/
def syncRoot : RunnerRoot :=
  { name := "n1",
    code := fun p =>
      if p = ["sync", "fortytwo"] then some ⟨some false, .returns (.intv 42)⟩
      else none }

/-- An otherwise-default entry pointing at the synchronous callable. -/
def syncEntry : RunnerEntry := { newEntry with code := some ["sync", "fortytwo"] }

/-- C3 (code bug): for a resolved callable with `is_async = False` returning
the plain value 42, `run` does not take 42 as the run result: because line
120 tests `code.is_async is not None` instead of `code.is_async`, the
returned value is awaited, which raises TypeError, so the run is recorded as
failed with `backoff` incremented to 2 and `result` left unset. -/
theorem run_sync_awaited_eval :
    run syncRoot syncEntry 10 11 =
      .okRecorded { newEntry with
          code := some ["sync", "fortytwo"]
          started := 10
          stopped := 11
          backoff := 2
          retry := some 411 }
        (.typeError "not awaitable") none
    ∧ (run syncRoot syncEntry 10 11).entry.result ≠ some (.intv 42) := by
  have h : run syncRoot syncEntry 10 11 =
      .okRecorded { newEntry with
          code := some ["sync", "fortytwo"]
          started := 10
          stopped := 11
          backoff := 2
          retry := some (11 + ((1 <<< 2 : Nat) : Rat) * 100) }
        (.typeError "not awaitable") none := rfl
  refine ⟨?_, ?_⟩ <;> rw [h]
  · norm_num [Nat.shiftLeft_eq]
  · decide

end DistKV

namespace DistKV

/-- A root whose registry maps `["boom"]` to a callable that raises
immediately. -/
def failRoot : RunnerRoot :=
  { name := "n1",
    code := fun p => if p = ["boom"] then some ⟨some false, .raisesExc⟩ else none }

/-- The entry state after `n` consecutive failed runs of the always-raising
callable, starting from a freshly created (default) entry pointing at
`["boom"]`; every run starts at time 10 and ends at time 11. -/
def entryAfterFailures : Nat → RunnerEntry
  | 0 => { newEntry with code := some ["boom"] }
  | n + 1 => (run failRoot (entryAfterFailures n) 10 11).entry

/-- Closed form of the entry state after at least one failed run. -/
lemma entryAfterFailures_succ (n : Nat) :
    entryAfterFailures (n + 1) = { newEntry with
      code := some ["boom"]
      started := 10
      stopped := 11
      backoff := n + 2
      retry := some (11 + ((1 <<< (n + 2) : Nat) : Rat) * 100) } := by
  induction n with
  | zero => rfl
  | succ m ih =>
    have hstep : entryAfterFailures (m + 2) =
        (run failRoot (entryAfterFailures (m + 1)) 10 11).entry := rfl
    rw [hstep, ih]
    rfl

/-- The fields of `entryAfterFailures n` that `should_start` consults. -/
lemma entryAfterFailures_fields (n : Nat) :
    (entryAfterFailures n).code = some ["boom"] ∧
    (entryAfterFailures n).node = none ∧
    (entryAfterFailures n).backoff = n + 1 ∧
    (entryAfterFailures n).delay = 100 ∧
    (entryAfterFailures n).target ≤ (entryAfterFailures n).started := by
  cases n with
  | zero => exact ⟨rfl, rfl, rfl, rfl, le_refl 0⟩
  | succ m =>
    rw [entryAfterFailures_succ m]
    refine ⟨rfl, rfl, rfl, rfl, ?_⟩
    show (0 : Rat) ≤ 10
    norm_num

end DistKV

namespace DistKV

/-- C8 counterexample: after one consecutive failed run starting from the
default (never-run, never-failed) entry state, `backoff` is 2, not 1: the
class-attribute default is `backoff = 1` (runner.py line 76), and the failed
run increments it. -/
theorem backoff_after_one_failure_cex : (entryAfterFailures 1).backoff ≠ 1 := by
  decide

/-- C8 amended: starting from the default entry state, after N consecutive
failed runs `backoff = N + 1` (the default `backoff = 1` counts as one
failure), and `should_start` schedules the next start at
`stopped + delay * 2^(N+1)`, which is at least the claimed bound
`stopped + delay * 2^N`. -/
theorem backoff_after_failures (n : Nat) (t : Rat) :
    (entryAfterFailures n).backoff = n + 1 ∧
    should_start (entryAfterFailures n) t =
      .wait ((entryAfterFailures n).stopped +
        (entryAfterFailures n).delay * 2 ^ (n + 1) - t) ∧
    (entryAfterFailures n).stopped + (entryAfterFailures n).delay * 2 ^ n ≤
      (entryAfterFailures n).stopped + (entryAfterFailures n).delay * 2 ^ (n + 1) := by
  obtain ⟨hc, hn, hb, hd, hts⟩ := entryAfterFailures_fields n
  have h2 : ((1 <<< (n + 1) : Nat) : Rat) = 2 ^ (n + 1) := by
    rw [Nat.one_shiftLeft]
    push_cast
    ring
  have hlt : ¬ (entryAfterFailures n).target > (entryAfterFailures n).started :=
    not_lt.mpr hts
  refine ⟨hb, ?_, ?_⟩
  · unfold should_start
    rw [hc, hn, hb, if_neg (by simp), if_neg (by simp), if_neg hlt,
      if_pos (Nat.succ_ne_zero n), h2]
  · have h3 : (2 : Rat) ^ n ≤ 2 ^ (n + 1) :=
      pow_le_pow_right₀ (by norm_num) (Nat.le_succ n)
    have h4 : (entryAfterFailures n).delay * 2 ^ n ≤
        (entryAfterFailures n).delay * 2 ^ (n + 1) := by
      rw [hd]
      nlinarith [h3]
    linarith

end DistKV

namespace DistKV

/-- A KV replication payload for a `RunnerEntry`: for each persisted
attribute in `ATTRS` (runner.py line 71), either the key is absent (`none`)
or it carries a value of that attribute's type. -/
structure Payload where
  code : Option (Option (List String))
  node : Option (Option String)
  started : Option Rat
  stopped : Option Rat
  delay : Option Rat
  backoff : Option Nat
  target : Option Rat
  result : Option (Option PyRes)
  deriving DecidableEq, Repr

/-- Modelled from the spec: `AttrClientEntry.set_value` (distkv/client.py,
which is not under src/) sets each persisted attribute listed in `ATTRS`
from the payload and reverts attributes whose key is missing to their class
defaults — spec section 6: "missing keys default as in section 3".  Transient
fields (`retry`, `_comment`, the scope) are untouched. -/
def applyPayload (e : RunnerEntry) (v : Payload) : RunnerEntry :=
  { e with
    code := v.code.getD none
    node := v.node.getD none
    started := v.started.getD 0
    stopped := v.stopped.getD 0
    delay := v.delay.getD 100
    backoff := v.backoff.getD 1
    target := v.target.getD 0
    result := v.result.getD none }

/-- Python's `repr`, as used by `"Cancel: Node set to %r" % (self.node,)`
(runner.py line 180) on the new `node` value. -/
def pyRepr : Option String → String
  | none => "None"
  | some s => "'" ++ s ++ "'"

/-- What one call to `RunnerEntry.set_value` did, besides the entry state it
leaves behind: how many times `self.scope.cancel()` ran, whether the
"running but node is %s" warning was logged, and whether the rescan loop was
triggered. -/
structure SetValueRes where
  entry : RunnerEntry
  cancels : Nat
  warned : Bool
  rescan : Bool
  deriving DecidableEq, Repr

/-- `RunnerEntry.set_value` (runner.py lines 163-191): snapshot the prior
`node` and `code` (lines 164-165), apply the payload (line 166), then decide
whether the running task must be cancelled:
* no live scope: return (lines 169-170), skipping `trigger_rescan`;
* code changed: set `_comment = "Cancel: Code changed"` and cancel (171-174);
* node unchanged: return (175-177), skipping `trigger_rescan`;
* prior node was this node (and the new node differs — including the case
  where it became None): set `_comment = "Cancel: Node set to %r"` with the
  new node's repr and cancel (178-181);
* prior node was some other node: log a warning (182-188);
* otherwise (prior node None, now set): no action;
finally `trigger_rescan` (line 191). -/
def set_value (rootName : String) (e : RunnerEntry) (v : Payload) : SetValueRes :=
  let n := e.node
  let c := e.code
  let e1 := applyPayload e v
  if e1.scope = none then ⟨e1, 0, false, false⟩
  else if c ≠ e1.code then
    ⟨{ e1 with comment := some "Cancel: Code changed", scope := some true },
      1, false, true⟩
  else if e1.node = n then ⟨e1, 0, false, false⟩
  else if n = some rootName then
    ⟨{ e1 with
        comment := some ("Cancel: Node set to " ++ pyRepr e1.node)
        scope := some true },
      1, false, true⟩
  else if n ≠ none then ⟨e1, 0, true, true⟩
  else ⟨e1, 0, false, true⟩

end DistKV

namespace DistKV

/-- The concrete pre-state for the C4 counterexample: this node ("A") owns
the entry and is running it (live, uncancelled scope). -/
def runningEntryA : RunnerEntry :=
  { newEntry with
    code := some ["job"]
    node := some "A"
    started := 10
    scope := some false }

/-- The concrete C4 payload: `code` unchanged, `node` set to null. -/
def relinquishPayload : Payload :=
  { code := some (some ["job"])
    node := some none
    started := some 10
    stopped := some 0
    delay := some 100
    backoff := some 1
    target := some 0
    result := some none }

/-- C4 counterexample: prior `node` = self ("A"), payload keeps `code` and
sets `node` to null while the scope is live — contrary to the claim,
`set_value` cancels the running task's scope (once) and sets the cancel
comment "Cancel: Node set to None". -/
theorem set_value_relinquish_cex :
    (set_value "A" runningEntryA relinquishPayload).cancels = 1 ∧
    (set_value "A" runningEntryA relinquishPayload).entry.comment =
      some "Cancel: Node set to None" := by
  constructor <;> rfl

/-- C4 amended: for every entry with a live running task owned by this node,
a `set_value` replication that leaves `code` unchanged and changes `node`
from this node's name to null cancels the running task's scope exactly once
and sets the cancel comment "Cancel: Node set to None" (the branch at
runner.py lines 178-181 fires for any new `node` different from ours,
including null). -/
theorem set_value_relinquish_cancels (rootName : String) (e : RunnerEntry)
    (v : Payload) (hscope : e.scope = some false) (hnode : e.node = some rootName)
    (hcode : v.code = some e.code) (hnew : v.node = some none) :
    (set_value rootName e v).cancels = 1 ∧
    (set_value rootName e v).entry.comment = some "Cancel: Node set to None" ∧
    (set_value rootName e v).entry.scope = some true := by
  have h1 : (applyPayload e v).scope = e.scope := rfl
  have h2 : (applyPayload e v).code = e.code := by
    simp [applyPayload, hcode]
  have h3 : (applyPayload e v).node = none := by
    simp [applyPayload, hnew]
  simp only [set_value, h1, h2, h3, hscope, hnode]
  rw [if_neg (by simp), if_neg (by simp)]
  refine ⟨rfl, ?_, rfl⟩
  rfl

/-- C4 witness: the amended theorem applied at the concrete counterexample
input. -/
theorem set_value_relinquish_cancels_witness :
    (set_value "A" runningEntryA relinquishPayload).cancels = 1 ∧
    (set_value "A" runningEntryA relinquishPayload).entry.comment =
      some "Cancel: Node set to None" ∧
    (set_value "A" runningEntryA relinquishPayload).entry.scope = some true :=
  set_value_relinquish_cancels "A" runningEntryA relinquishPayload
    (by decide) (by decide) (by decide) (by decide)

end DistKV

namespace DistKV

/-- After any `set_value`, the entry's persisted attributes are exactly those
decoded from the payload, so re-applying the same payload changes nothing. -/
lemma applyPayload_set_value_entry (rootName : String) (e : RunnerEntry)
    (v : Payload) :
    applyPayload (set_value rootName e v).entry v = (set_value rootName e v).entry := by
  simp only [set_value]
  split_ifs <;> rfl

/-- On an entry whose persisted attributes already agree with the payload,
`set_value` is a no-op: it either returns at the no-scope check or at the
nothing-changed check, in both cases without cancelling. -/
lemma set_value_stable (rootName : String) (x : RunnerEntry) (v : Payload)
    (hx : applyPayload x v = x) :
    (set_value rootName x v).entry = x ∧ (set_value rootName x v).cancels = 0 := by
  simp only [set_value, hx]
  by_cases hs : x.scope = none
  · rw [if_pos hs]
    exact ⟨rfl, rfl⟩
  · rw [if_neg hs, if_neg (by simp)]
    norm_num

end DistKV

namespace DistKV

/-- C9: `set_value` is idempotent with respect to cancellation and state:
applying the same payload a second time immediately after the first leaves
the entry state identical and performs zero additional cancellations of the
running task's scope. -/
theorem set_value_idempotent (rootName : String) (e : RunnerEntry) (v : Payload) :
    (set_value rootName (set_value rootName e v).entry v).entry =
      (set_value rootName e v).entry ∧
    (set_value rootName (set_value rootName e v).entry v).cancels = 0 :=
  set_value_stable rootName (set_value rootName e v).entry v
    (applyPayload_set_value_entry rootName e v)

end DistKV

namespace DistKV

/-- `RunnerRoot.max_age` (runner.py lines 362-365):
`cycle_time_max * (history_size + 1.5)`. -/
def max_age (cycleTimeMax : Rat) (historySize : Nat) : Rat :=
  cycleTimeMax * ((historySize : Rat) + 3 / 2)

/-- What one iteration of the `_age_killer` watchdog loop does. -/
inductive AgeKillerStep where
  | ticked (t1New : Rat)
  | looped (t1New : Rat)
  | raised (exc : PyExc)
  deriving DecidableEq, Repr

/-- One iteration of the `_age_killer` watchdog loop (runner.py lines
424-434), entered with deadline base `t1`: wait up to `maxAge` for a tick on
`_age_q`.  `tick = some t` means a tick arrived at time `t` (lines 427-429:
reset the base and continue); `tick = none` means the wait timed out at
current time `t2` (line 430).  On timeout, if `t1 + maxAge < t2` (line 431)
the code executes `raise NotSelected(self.max_age, t, time.time())`
(line 433) — but no variable `t` exists in `_age_killer` (its locals are
`t1` and `t2`, and the module has no global `t`), so evaluating the
constructor arguments raises `NameError` for `t` instead of `NotSelected`;
otherwise set `t1 = t2` (line 434) and loop. -/
def age_killer_step (maxAge t1 : Rat) (tick : Option Rat) (t2 : Rat) :
    AgeKillerStep :=
  match tick with
  | some tNew => .ticked tNew
  | none => if t1 + maxAge < t2 then .raised (.nameError "t") else .looped t2

end DistKV

namespace DistKV

/-- C5 (code bug): when the wait for a tick times out and more than
`max_age = cycle_time_max * (history_size + 1.5)` has elapsed since the
previous deadline, `_age_killer` does not raise `NotSelected`: line 433
references the undefined name `t`, so the exception that terminates the
runner is a `NameError`.  Evaluated at the failing input `cycle_time_max =
10`, `history_size = 4` (so `max_age = 55`), base `t1 = 0`, no tick, timeout
observed at `t2 = 1000`. -/
theorem age_killer_starvation_eval :
    age_killer_step (max_age 10 4) 0 none 1000 = .raised (.nameError "t") ∧
    (PyExc.nameError "t") ≠ PyExc.notSelected := by
  constructor
  · simp only [age_killer_step, max_age]
    rw [if_pos (by norm_num)]
  · decide

end DistKV

namespace DistKV

/-- `RunnerNode` (runner.py lines 240-259): per-node metadata interned by
name.  Class attributes are `seen = 0` and `load = 999`; `__new__` sets
`name` (and `root`).  The class has no `age` attribute or property —
contrast `RunnerEntry.age` (lines 235-237). -/
structure RunnerNode where
  name : String
  seen : Rat
  load : Rat
  deriving DecidableEq, Repr

/-- Python lookup of a numeric attribute on a `RunnerNode`: only `seen` and
`load` exist; any other name raises `AttributeError`. -/
def RunnerNode.getattr (n : RunnerNode) (a : String) : Except PyExc Rat :=
  if a = "seen" then .ok n.seen
  else if a = "load" then .ok n.load
  else .error (.attributeError a)

/-- `RunnerRoot.get_node` via `RunnerNode.__new__` (runner.py lines 354-355
and 248-256): the interned node of that name, or a fresh one with the class
defaults `seen = 0`, `load = 999`. -/
def get_node (nodes : List RunnerNode) (nm : String) : RunnerNode :=
  (nodes.find? (fun n => n.name = nm)).getD ⟨nm, 0, 999⟩

/-- `RunnerEntry.seems_down` (runner.py lines 159-161): null the ownership
field and persist the entry. -/
def seems_down (e : RunnerEntry) : RunnerEntry := { e with node := none }

/-- The `while` loop of `_cleanup_nodes` (runner.py lines 436-444), with
`node_history` as a list whose last element is the oldest (the source reads
`node_history[-1]` and pops from that end).  While more than one name
remains: intern-look-up the oldest node and evaluate `node.age` (line 439) —
an attribute `RunnerNode` does not have, so the lookup raises
`AttributeError` — then, were the age available, break if it is below
`maxAge`, else pop the node and call `seems_down()` on every child entry
whose `node` equals the evicted name.  `fuel` bounds the recursion and is
set to the history length on entry. -/
def cleanup_go (maxAge : Rat) (nodes : List RunnerNode) :
    Nat → List String → List RunnerEntry →
      Except PyExc (List String × List RunnerEntry)
  | 0, hist, entries => .ok (hist, entries)
  | fuel + 1, hist, entries =>
    if hist.length ≤ 1 then .ok (hist, entries)
    else
      let nm := hist.getLastD ""
      match (get_node nodes nm).getattr "age" with
      | .error exc => .error exc
      | .ok age =>
        if age < maxAge then .ok (hist, entries)
        else cleanup_go maxAge nodes fuel hist.dropLast
          (entries.map fun j => if j.node = some nm then seems_down j else j)

/-- `RunnerRoot._cleanup_nodes` (runner.py lines 436-444). -/
def cleanup_nodes (maxAge : Rat) (nodes : List RunnerNode)
    (hist : List String) (entries : List RunnerEntry) :
    Except PyExc (List String × List RunnerEntry) :=
  cleanup_go maxAge nodes hist.length hist entries

end DistKV

namespace DistKV

/-- C6 (code bug): `_cleanup_nodes` never evicts anything — on any state
with more than one node in the history it raises `AttributeError` at
`node.age` (line 439), because `RunnerNode` has no `age`; in particular no
`seems_down()` call is reached.  Evaluated at the failing input: history
`["B", "A"]` with "A" oldest and long dead (`seen = 0`, `max_age = 55`,
node "B" seen at 1000) and one entry owned by "A".  The second conjunct
checks the part of the claim the code does satisfy: `seems_down` itself
nulls the entry's `node` field. -/
theorem cleanup_nodes_attr_eval :
    cleanup_nodes 55 [⟨"B", 1000, 50⟩, ⟨"A", 0, 50⟩] ["B", "A"]
        [{ newEntry with node := some "A" }] =
      .error (.attributeError "age") ∧
    seems_down { newEntry with node := some "A" } =
      { newEntry with node := none } := by
  constructor <;> rfl

end DistKV

namespace DistKV

/-- Modelled from the spec: the connectivity states imported from
distkv.actor (not under src/).  Spec section 3 defines exactly three —
Detached, Partial, Complete.  The source compares them with `is` (identity
of the class objects), matched here by constructor equality. -/
inductive ActorState where
  | DetachedState
  | PartialState
  | CompleteState
  deriving DecidableEq, Repr

/-- The state computation of `SingleRunnerRoot.notify_active` (runner.py
lines 512-521): `ac = len(node_history)`; 0 means Detached; length 1 with
this node in the history means Detached; length at least `n_nodes` means
Complete; otherwise Partial.  `n_nodes` is configuration read by the root
(not assigned in runner.py). -/
def compute_active (name : String) (hist : List String) (nNodes : Nat) :
    ActorState :=
  if hist.length = 0 then .DetachedState
  else if name ∈ hist ∧ hist.length = 1 then .DetachedState
  else if nNodes ≤ hist.length then .CompleteState
  else .PartialState

/-- What one call to `notify_active` did: the stored `_active`, the events
actually delivered to running jobs, and the exception it raised, if any. -/
structure NotifyRes where
  active : Option ActorState
  sent : List ActorState
  exc : Option PyExc
  deriving DecidableEq, Repr

/-- `SingleRunnerRoot.notify_active` (runner.py lines 508-526): compute the
new state; if it differs from the previous one (`oac is not ac`; `_active`
starts as None, so the first computed state always differs), store it in
`_active` (line 524) and then loop over the children calling
`n.send_event(evt)` (lines 525-526).  No variable `evt` is ever assigned in
`notify_active` — the computed state is in `ac` — so with at least one child
the loop raises `NameError` for `evt` on its first iteration; with no
children the body never runs.  In no case is any event delivered. -/
def notify_active (name : String) (hist : List String) (nNodes : Nat)
    (oac : Option ActorState) (children : List RunnerEntry) : NotifyRes :=
  let ac := compute_active name hist nNodes
  if oac ≠ some ac then
    if children.isEmpty then ⟨some ac, [], none⟩
    else ⟨some ac, [], some (.nameError "evt")⟩
  else ⟨oac, [], none⟩

end DistKV

namespace DistKV

/-- C7 (code bug): the connectivity-state computation follows the claimed
rules (empty history means Detached; only this node, length 1, means
Detached; length at least `n_nodes` means Complete; otherwise Partial), but
`notify_active` does not push the changed state into running jobs: the send
loop references the undefined name `evt` (runner.py line 526), so a state
change with at least one child raises `NameError` and delivers nothing —
evaluated here at history `["B", "C"]`, `n_nodes = 5`, previous state None,
one child. -/
theorem notify_active_rules_and_push_eval :
    (∀ (name : String) (hist : List String) (nNodes : Nat),
      compute_active name hist nNodes =
        if hist = [] then .DetachedState
        else if hist.length = 1 ∧ name ∈ hist then .DetachedState
        else if hist.length ≥ nNodes then .CompleteState
        else .PartialState) ∧
    notify_active "A" ["B", "C"] 5 none [newEntry] =
      ⟨some .PartialState, [], some (.nameError "evt")⟩ := by
  constructor
  · intro name hist nNodes
    unfold compute_active
    by_cases h0 : hist = []
    · simp [h0]
    · have h0' : ¬ hist.length = 0 := by simpa [List.length_eq_zero] using h0
      by_cases h1 : name ∈ hist ∧ hist.length = 1
      · simp [h0, h0', h1.1, h1.2]
      · have h1' : ¬ (hist.length = 1 ∧ name ∈ hist) := fun h => h1 ⟨h.2, h.1⟩
        by_cases h2 : nNodes ≤ hist.length
        · simp [h0, h0', h1, h1', h2, ge_iff_le]
        · simp [h0, h0', h1, h1', h2, ge_iff_le]
  · rfl

end DistKV

namespace DistKV

/-- A Python value as it appears in `RunnerEntry.__eq__`: the left operand
of `self.name == other` is a string, and for an entry argument the right
operand is a tuple (its `subpath`).  In Python, `==` between a str and a
tuple is simply False — never an error. -/
inductive PyVal where
  | pstr (s : String)
  | ptup (l : List String)
  deriving DecidableEq, Repr

/-- Python `==` on such values. -/
def pyEq : PyVal → PyVal → Bool
  | .pstr a, .pstr b => a = b
  | .ptup a, .ptup b => a = b
  | .pstr _, .ptup _ => false
  | .ptup _, .pstr _ => false

/-- Modelled from the spec: `ClientEntry.subpath` and `ClientEntry.name`
(distkv/client.py, not under src/).  Per spec sections 4.5 and 6, entries
live in a KV subtree: an entry's `subpath` is the tuple of path components
below the root, and its `name` is the entry's own — last — component.  A
real entry's subpath is nonempty (`getLastD` returns "" only for the root,
which is not a RunnerEntry). -/
structure EntryPath where
  subpath : List String
  deriving DecidableEq, Repr

/-- The entry's name: the last component of its path. -/
def EntryPath.name (e : EntryPath) : String := e.subpath.getLastD ""

/-- `RunnerEntry.__hash__` (runner.py lines 224-225): `hash(self.subpath)` —
a function of the subpath tuple alone (the concrete mixing is Python's and
irrelevant; only its dependence on `subpath` matters). -/
def entry_hash (e : EntryPath) : Nat :=
  e.subpath.foldl (fun h s => h * 31 + s.length) 7

/-- `RunnerEntry.__eq__` (runner.py lines 227-229) applied to two entries:
`other = getattr(other, "subpath", other)` replaces the right operand by its
subpath tuple, after which `self.name == other` compares this entry's name —
a string — with that tuple. -/
def entry_eq (a b : EntryPath) : Bool :=
  pyEq (.pstr a.name) (.ptup b.subpath)

end DistKV

namespace DistKV

/-- C10 counterexample: reflexivity fails — the entry at subpath `["a"]`
does not compare equal to itself, because its name "a" (a string) is
compared against its subpath `("a",)` (a tuple). -/
theorem entry_eq_refl_cex : entry_eq ⟨["a"]⟩ ⟨["a"]⟩ = false := rfl

/-- C10 amended: `__hash__` is derived from the subpath (entries with equal
subpaths hash equally) and `__eq__` compares the entry's name against the
other's subpath; since a string never equals a tuple, no two entries — in
particular not an entry and itself — ever compare equal, and the
equal-entries-have-equal-hashes property holds only vacuously. -/
theorem entry_eq_hash_amended :
    (∀ a b : EntryPath, entry_eq a b = false) ∧
    (∀ a b : EntryPath, a.subpath = b.subpath → entry_hash a = entry_hash b) := by
  constructor
  · intro a b
    rfl
  · intro a b h
    unfold entry_hash
    rw [h]

/-- C10 witness: the amended theorem applied at concrete entries, with the
hash-congruence hypothesis discharged by `rfl`. -/
theorem entry_eq_hash_amended_witness :
    entry_eq ⟨["x", "y"]⟩ ⟨["x", "y"]⟩ = false ∧
    entry_hash ⟨["x", "y"]⟩ = entry_hash ⟨["x", "y"]⟩ :=
  ⟨entry_eq_hash_amended.1 ⟨["x", "y"]⟩ ⟨["x", "y"]⟩,
    entry_eq_hash_amended.2 ⟨["x", "y"]⟩ ⟨["x", "y"]⟩ rfl⟩

end DistKV
